import Mathlib

/-!
Shallow embedding of `rdacb.py` (class `RDACB`): a polling bot that tracks
usernames in a SQLite table `tracked`, fetches each tracked user's newest
comments from an external source, filters them, and upserts the qualifying
ones into a SQLite table `downvoted`.

Modelling choices:
  * The two SQLite tables are lists of typed rows inside a `DB` structure.
    `username` is the PRIMARY KEY of `tracked` and `id` the PRIMARY KEY of
    `downvoted`; operations enforce these exactly the way the SQL does.
  * Every statement runs inside `with self.db:` (one transaction per call),
    so a failing statement leaves the database unchanged and re-raises.  A
    database operation therefore returns `DB × Option PyError`: the state
    after the call together with the uncaught Python exception, if any.
  * `comment.score` is an SQL INTEGER, modelled as `Int` (never NULL in the
    embedding, so the `score IS NOT NULL` half of the CHECK always holds).
  * `time.time()` is passed in as an explicit `now : Int` argument
    (`math.trunc` already applied).
  * The external comment source (`self.reddit.redditor(user).comments.new()`)
    is a parameter `src : String → List Comment`; PRAW materialises a finite
    listing, modelled as a list consumed in order.
-/

/-- A comment record as produced by the external comment source
(the fields of `praw`'s comment object read by `rdacb.py`). -/
structure Comment where
  fullname : String
  score : Int
  score_hidden : Bool
  link_permalink : String
  subreddit_id : String
  created_utc : Int
  body : String
deriving Repr, DecidableEq

/-- A row of the `tracked` table:
`(username TEXT PRIMARY KEY, added INTEGER NOT NULL, hidden BOOLEAN DEFAULT 0,
deleted BOOLEAN DEFAULT 0)`. -/
structure TrackedRow where
  username : String
  added : Int
  hidden : Bool
  deleted : Bool
deriving Repr, DecidableEq

/-- A row of the `downvoted` table:
`(id TEXT PRIMARY KEY, author TEXT NOT NULL, score INTEGER CHECK(score IS NOT
NULL AND score <= 0), permalink TEXT NOT NULL, sub_id TEXT NOT NULL, created
INTEGER NOT NULL, body TEXT NOT NULL)`. -/
structure DownvotedRow where
  id : String
  author : String
  score : Int
  permalink : String
  sub_id : String
  created : Int
  body : String
deriving Repr, DecidableEq

/-- The bot's SQLite database: the two tables of `init_db`. -/
structure DB where
  tracked : List TrackedRow
  downvoted : List DownvotedRow
deriving Repr, DecidableEq

/-- The uncaught Python exceptions the embedded code can raise:
`sqlite3.IntegrityError` (PRIMARY KEY or CHECK violation) and the
name-binding error (`UnboundLocalError`) from reading an unassigned local. -/
inductive PyError where
  | integrityError : PyError
  | nameError : PyError
deriving Repr, DecidableEq

/-- The empty database (both tables created, no rows). -/
def DB.empty : DB := { tracked := [], downvoted := [] }

/-- The schema state of the SQLite file: which tables exist.
`CREATE TABLE IF NOT EXISTS` consults and extends this. -/
structure Schema where
  tables : List String
deriving Repr, DecidableEq

/-- `CREATE TABLE IF NOT EXISTS name (...)`: a no-op when the table exists,
otherwise it records the new table.  It never raises. -/
def createTableIfNotExists (s : Schema) (name : String) : Schema :=
  if name ∈ s.tables then s else { tables := s.tables ++ [name] }

/-- `RDACB.init_db`: creates `tracked` then `downvoted`, each with
`CREATE TABLE IF NOT EXISTS`, inside one transaction. -/
def init_db (s : Schema) : Schema × Option PyError :=
  (createTableIfNotExists (createTableIfNotExists s "tracked") "downvoted", none)

/-- `RDACB.add_user`: `INSERT INTO tracked VALUES (user, trunc(time.time()),
hidden, False)`.  A duplicate `username` violates the PRIMARY KEY, raising
`IntegrityError`, and the transaction rolls back. -/
def add_user (db : DB) (user : String) (hidden : Bool) (now : Int) :
    DB × Option PyError :=
  if db.tracked.any (fun r => r.username = user) then
    (db, some .integrityError)
  else
    ({ db with tracked := db.tracked ++
        [{ username := user, added := now, hidden := hidden, deleted := false }] },
     none)

/-- `RDACB.get_users`:
`SELECT username, hidden FROM tracked WHERE deleted = 0`. -/
def get_users (db : DB) : List (String × Bool) :=
  (db.tracked.filter (fun r => r.deleted = false)).map
    (fun r => (r.username, r.hidden))

/-- The `downvoted` row built by `save_downvoted` from an author name and a
source comment. -/
def rowOfComment (author : String) (c : Comment) : DownvotedRow :=
  { id := c.fullname, author := author, score := c.score,
    permalink := c.link_permalink, sub_id := c.subreddit_id,
    created := c.created_utc, body := c.body }

/-- The successful effect of `INSERT OR REPLACE INTO downvoted`: any existing
row with the same primary key `id` is replaced by the new row. -/
def applyUpsert (db : DB) (r : DownvotedRow) : DB :=
  { db with downvoted := db.downvoted.filter (fun x => x.id ≠ r.id) ++ [r] }

/-- `INSERT OR REPLACE INTO downvoted VALUES (...)` with the row `r`.
SQLite's REPLACE resolution applies to the PRIMARY KEY conflict, but a CHECK
violation (`score <= 0` here; `score` is never NULL in the embedding) always
aborts: the transaction rolls back and `IntegrityError` propagates. -/
def upsertComment (db : DB) (r : DownvotedRow) : DB × Option PyError :=
  if r.score ≤ 0 then (applyUpsert db r, none)
  else (db, some .integrityError)

/-- `RDACB.save_downvoted`: maps the comment's fields into a `downvoted` row
and runs the upsert in its own transaction. -/
def save_downvoted (db : DB) (author : String) (c : Comment) :
    DB × Option PyError :=
  upsertComment db (rowOfComment author c)

/-- The filter condition of `scan_user`'s loop:
`not comment.score_hidden and comment.score <= 0`. -/
def scanPred (c : Comment) : Bool :=
  !c.score_hidden && c.score ≤ 0

/-- The `for comment in ...` loop body of `RDACB.scan_user`, run over the
remaining comments in source order.  Each accepted comment is saved in its
own transaction; a raised exception aborts the loop, keeping the commits so
far. -/
def scanComments (db : DB) (author : String) :
    List Comment → DB × Option PyError
  | [] => (db, none)
  | c :: cs =>
    if scanPred c then
      match save_downvoted db author c with
      | (db1, none) => scanComments db1 author cs
      | (db1, some e) => (db1, some e)
    else scanComments db author cs

/-- `RDACB.scan_user`: fetches the user's newest comments and runs the loop.
The loop body assigns the local `counter` on every iteration, so after a loop
over a non-empty listing the final log line reads it fine; over an empty
listing `counter` was never assigned and reading it raises a name-binding
error (`UnboundLocalError`). -/
def scan_user (src : String → List Comment) (db : DB) (user : String) :
    DB × Option PyError :=
  let comments := src user
  match scanComments db user comments with
  | (db1, some e) => (db1, some e)
  | (db1, none) =>
    if comments.isEmpty then (db1, some .nameError) else (db1, none)

/-- `RDACB.cleanup`: `DELETE FROM downvoted WHERE score = cutoff`
(the Python default for `cutoff` is 0). -/
def cleanup (db : DB) (cutoff : Int) : DB :=
  { db with downvoted := db.downvoted.filter (fun r => r.score ≠ cutoff) }

/-- The scanning `for` loop of `RDACB.run`: scans each fetched
`(user, hidden)` pair in order with `scan_user`; an uncaught exception from a
scan aborts the loop.  Also returns the list of users `scan_user` was invoked
on, in invocation order (every invocation performs exactly one comment-source
call, so this list is also the list of source calls of the loop). -/
def scanUsers (src : String → List Comment) (db : DB) :
    List (String × Bool) → DB × Option PyError × List String
  | [] => (db, none, [])
  | (user, _hidden) :: rest =>
    match scan_user src db user with
    | (db1, none) =>
      let r := scanUsers src db1 rest
      (r.1, r.2.1, user :: r.2.2)
    | (db1, some e) => (db1, some e, [user])

/-- One iteration of the `while True:` body of `RDACB.run`: fetch
`get_users`; if empty, `time.sleep(10)` and `continue`; otherwise iterate
`for (user, hidden) in self.get_users():` (the code fetches the list a second
time for the loop) calling `scan_user` on each.  Returns the new database,
the uncaught exception if a scan raised, the users scanned (in order), and
the sleep duration when the cycle idled. -/
def pollCycle (src : String → List Comment) (db : DB) :
    DB × Option PyError × List String × Option Nat :=
  let users := get_users db
  if users.length = 0 then (db, none, [], some 10)
  else
    let r := scanUsers src db (get_users db)
    (r.1, r.2.1, r.2.2, none)

/-! ## Helper lemmas -/

/-- The state written by a successful scan loop: every comment of `cs` passing
the filter is upserted, in source order. -/
def scanFold (db : DB) (author : String) (cs : List Comment) : DB :=
  cs.foldl (fun d c => applyUpsert d (rowOfComment author c)) db

theorem scanComments_eq (author : String) (cs : List Comment) :
    ∀ db : DB, scanComments db author cs =
      (scanFold db author (cs.filter scanPred), none) := by
  induction cs with
  | nil => intro db; rfl
  | cons c cs ih =>
    intro db
    by_cases h : scanPred c = true
    · have hs : (rowOfComment author c).score ≤ 0 := by
        have h2 := h
        simp only [scanPred, Bool.and_eq_true, decide_eq_true_eq] at h2
        simpa [rowOfComment] using h2.2
      simp [scanComments, h, save_downvoted, upsertComment, hs, ih,
        scanFold, List.filter_cons]
    · simp [scanComments, h, ih, scanFold, List.filter_cons]

theorem scan_user_eq (src : String → List Comment) (db : DB) (user : String) :
    scan_user src db user =
      (scanFold db user ((src user).filter scanPred),
       if (src user).isEmpty then some .nameError else none) := by
  simp only [scan_user, scanComments_eq]
  split <;> simp_all

theorem scanUsers_total (src : String → List Comment) :
    ∀ (ps : List (String × Bool)) (db : DB),
      (∀ p ∈ ps, src p.1 ≠ []) →
        (scanUsers src db ps).2.1 = none ∧
        (scanUsers src db ps).2.2 = ps.map Prod.fst := by
  intro ps
  induction ps with
  | nil => intro db _; simp [scanUsers]
  | cons p rest ih =>
    intro db hne
    obtain ⟨user, hidden⟩ := p
    have hu : src user ≠ [] := hne (user, hidden) (List.mem_cons_self _ _)
    have hok : scan_user src db user =
        (scanFold db user ((src user).filter scanPred), none) := by
      rw [scan_user_eq]
      simp [List.isEmpty_iff, hu]
    have ihr := ih (scanFold db user ((src user).filter scanPred))
      (fun q hq => hne q (List.mem_cons_of_mem _ hq))
    simp only [scanUsers, hok]
    simp [ihr.1, ihr.2]

theorem scanFold_tracked (author : String) (cs : List Comment) :
    ∀ db : DB, (scanFold db author cs).tracked = db.tracked := by
  induction cs with
  | nil => intro db; rfl
  | cons c cs ih =>
    intro db
    simpa [scanFold, List.foldl_cons] using
      ih (applyUpsert db (rowOfComment author c))

theorem filter_eq_id_of_filter_ne (l : List DownvotedRow) (i : String) :
    (l.filter (fun x => x.id ≠ i)).filter (fun x => x.id = i) = [] := by
  induction l with
  | nil => rfl
  | cons a l ih =>
    by_cases h : a.id = i <;> simp [List.filter_cons, h, ih]

theorem createTable_mem_self (s : Schema) (n : String) :
    n ∈ (createTableIfNotExists s n).tables := by
  unfold createTableIfNotExists
  split
  · assumption
  · simp

theorem createTable_mem_mono (s : Schema) (n m : String) (h : m ∈ s.tables) :
    m ∈ (createTableIfNotExists s n).tables := by
  unfold createTableIfNotExists
  split
  · exact h
  · simp [h]

theorem createTable_of_mem (s : Schema) (n : String) (h : n ∈ s.tables) :
    createTableIfNotExists s n = s := by
  simp [createTableIfNotExists, h]

theorem createTable_nodup (s : Schema) (n : String) (h : s.tables.Nodup) :
    (createTableIfNotExists s n).tables.Nodup := by
  unfold createTableIfNotExists
  split
  · exact h
  · next hn => simp [List.nodup_append, h, hn]

/-! ## Example fixtures (concrete inputs used by the claim theorems) -/

/-- A source comment with the given id, score and score-hidden flag. -/
def mkComment (name : String) (score : Int) (hidden : Bool) : Comment :=
  { fullname := name, score := score, score_hidden := hidden,
    link_permalink := "/r/sub/c", subreddit_id := "t5_s", created_utc := 0,
    body := "text" }

/-- A `downvoted` row with the given id and score. -/
def mkRow (i : String) (score : Int) : DownvotedRow :=
  { id := i, author := "u", score := score, permalink := "/p",
    sub_id := "t5_s", created := 0, body := "b" }

/-- A source returning, for every user, comments with scores
`[5, 0, -1, -3]`, none score-hidden (the spec's filter test). -/
def srcScores : String → List Comment := fun _ =>
  [mkComment "t1_a" 5 false, mkComment "t1_b" 0 false,
   mkComment "t1_c" (-1) false, mkComment "t1_d" (-3) false]

/-- A source returning one score-hidden comment with score -2. -/
def srcHidden : String → List Comment := fun _ => [mkComment "t1_h" (-2) true]

/-- A non-hidden, downvoted comment accepted by the scan filter. -/
def commentOK : Comment := mkComment "t1_x" (-2) false

/-- A source returning one acceptable comment for every user. -/
def srcAllGood : String → List Comment := fun _ => [commentOK]

/-- A source returning no comments for any user. -/
def srcNone : String → List Comment := fun _ => []

/-- A source with an empty listing for alice and one comment for others. -/
def srcAliceEmpty : String → List Comment :=
  fun u => if u = "alice" then [] else [commentOK]

/-- A database tracking alice and bob, both active. -/
def dbTwoUsers : DB :=
  { tracked :=
      [{ username := "alice", added := 1, hidden := false, deleted := false },
       { username := "bob", added := 2, hidden := false, deleted := false }],
    downvoted := [] }

/-- A database tracking only alice, active. -/
def dbAliceActive : DB :=
  { tracked :=
      [{ username := "alice", added := 1, hidden := false, deleted := false }],
    downvoted := [] }

/-- A database whose only tracked row is alice, soft-deleted. -/
def dbAliceDeleted : DB :=
  { tracked :=
      [{ username := "alice", added := 1, hidden := false, deleted := true }],
    downvoted := [] }

/-- A database with a soft-deleted alice and an active bob. -/
def dbSoftDelete : DB :=
  { tracked :=
      [{ username := "alice", added := 1, hidden := false, deleted := true },
       { username := "bob", added := 2, hidden := true, deleted := false }],
    downvoted := [] }

/-- Stored comments with scores `[-1, 0, 0, -5]` (the spec's purge test). -/
def dbPurge : DB :=
  { tracked := [],
    downvoted := [mkRow "a" (-1), mkRow "b" 0, mkRow "c" 0, mkRow "d" (-5)] }

/-- A valid stored row with id t1_x, score -1, body "old". -/
def rowOld : DownvotedRow :=
  { id := "t1_x", author := "alice", score := -1, permalink := "/p",
    sub_id := "t5_s", created := 0, body := "old" }

/-- The same id as `rowOld` but a positive score and a new body. -/
def rowNew : DownvotedRow := { rowOld with score := 5, body := "new" }

/-- The same id as `rowOld` with a non-positive score and a new body. -/
def rowNew2 : DownvotedRow := { rowOld with score := -4, body := "new" }

/-! ## Claim theorems -/

/-- C4: `add_user(username, hidden)` inserts a tracked row with `added` set to
the current time and `deleted = false` when no row with that username exists,
and raises an uncaught uniqueness-constraint error leaving the table unchanged
when the username already exists. -/
theorem add_user_spec (db : DB) (user : String) (hidden : Bool) (now : Int) :
    ((∀ r ∈ db.tracked, r.username ≠ user) →
      add_user db user hidden now =
        ({ db with tracked := db.tracked ++
            [{ username := user, added := now, hidden := hidden,
               deleted := false }] }, none)) ∧
    ((∃ r ∈ db.tracked, r.username = user) →
      add_user db user hidden now = (db, some .integrityError)) := by
  constructor
  · intro h
    have hany : db.tracked.any (fun r => r.username = user) = false := by
      simp only [List.any_eq_false, decide_eq_true_eq]
      exact h
    simp [add_user, hany]
  · intro h
    have hany : db.tracked.any (fun r => r.username = user) = true := by
      simp only [List.any_eq_true, decide_eq_true_eq]
      exact h
    simp [add_user, hany]

/-- Witness for C4 at concrete inputs: adding alice to the empty store
succeeds with the given row; adding alice again fails with the constraint
error and leaves the store unchanged. -/
theorem add_user_spec_witness :
    add_user DB.empty "alice" false 100 =
      ({ DB.empty with tracked :=
          [{ username := "alice", added := 100, hidden := false,
             deleted := false }] }, none) ∧
    add_user dbAliceActive "alice" true 200 =
      (dbAliceActive, some .integrityError) := by
  constructor
  · have h := (add_user_spec DB.empty "alice" false 100).1
      (by intro r hr; simp [DB.empty] at hr)
    simpa [DB.empty] using h
  · exact (add_user_spec dbAliceActive "alice" true 200).2
      ⟨{ username := "alice", added := 1, hidden := false, deleted := false },
       by simp [dbAliceActive], rfl⟩

/-- C5: under the tracked table's PRIMARY KEY invariant (usernames pairwise
distinct), a row with `deleted = true` never contributes its
`(username, hidden)` pair to `get_users` — the row stays in the table,
`get_users` being a pure query — while every row with `deleted = false`
appears as its pair. -/
theorem get_users_soft_delete (db : DB)
    (hnd : (db.tracked.map TrackedRow.username).Nodup) :
    (∀ r ∈ db.tracked, r.deleted = true →
      (r.username, r.hidden) ∉ get_users db) ∧
    (∀ r ∈ db.tracked, r.deleted = false →
      (r.username, r.hidden) ∈ get_users db) := by
  constructor
  · intro r hr hdel hmem
    simp only [get_users, List.mem_map, List.mem_filter,
      decide_eq_true_eq] at hmem
    obtain ⟨r2, ⟨hr2, hdel2⟩, heq⟩ := hmem
    have hu : r2.username = r.username := congrArg Prod.fst heq
    have : r2 = r := List.inj_on_of_nodup_map hnd hr2 hr hu
    rw [this] at hdel2
    rw [hdel] at hdel2
    exact Bool.noConfusion hdel2
  · intro r hr hdel
    simp only [get_users, List.mem_map, List.mem_filter, decide_eq_true_eq]
    exact ⟨r, ⟨hr, hdel⟩, rfl⟩

/-- Witness for C5: in a store where alice is soft-deleted and bob is active,
alice's pair is absent from `get_users` and bob's pair is present. -/
theorem get_users_soft_delete_witness :
    ("alice", false) ∉ get_users dbSoftDelete ∧
    ("bob", true) ∈ get_users dbSoftDelete := by
  have h := get_users_soft_delete dbSoftDelete (by decide)
  refine ⟨h.1 { username := "alice", added := 1, hidden := false,
                deleted := true } ?_ rfl,
          h.2 { username := "bob", added := 2, hidden := true,
                deleted := false } ?_ rfl⟩
  · simp [dbSoftDelete]
  · simp [dbSoftDelete]

/-- C6: `cleanup cutoff` deletes exactly the `downvoted` rows whose score
equals `cutoff`, keeps every other row (a sublist: same rows, same order),
leaves `tracked` untouched; on stored scores `[-1, 0, 0, -5]` with the
default cutoff 0 exactly the two zero-score rows are removed. -/
theorem cleanup_purges_exactly_cutoff :
    (∀ (db : DB) (cutoff : Int),
      (∀ r, r ∈ (cleanup db cutoff).downvoted ↔
        r ∈ db.downvoted ∧ r.score ≠ cutoff) ∧
      List.Sublist (cleanup db cutoff).downvoted db.downvoted ∧
      (cleanup db cutoff).tracked = db.tracked) ∧
    (cleanup dbPurge 0).downvoted = [mkRow "a" (-1), mkRow "d" (-5)] := by
  refine ⟨fun db cutoff => ⟨fun r => ?_, ?_, rfl⟩, ?_⟩
  · simp [cleanup, List.mem_filter]
  · exact List.filter_sublist _
  · rfl

/-- C7: when `get_users` is empty, a poll cycle makes no scan (hence no
comment-source call: each `scan_user` invocation is exactly one source call),
sleeps 10 units, and leaves the database unchanged with no error, restarting
the loop. -/
theorem pollCycle_idle_when_no_active_users
    (src : String → List Comment) (db : DB) (h : get_users db = []) :
    pollCycle src db = (db, none, [], some 10) := by
  simp [pollCycle, h]

/-- Witness for C7: with only a soft-deleted alice tracked, the cycle idles
even though a source with comments is available. -/
theorem pollCycle_idle_witness :
    pollCycle srcAllGood dbAliceDeleted = (dbAliceDeleted, none, [], some 10) :=
  pollCycle_idle_when_no_active_users srcAllGood dbAliceDeleted (by decide)

/-- C8: `init_db` never raises, running it again on the resulting schema
returns that schema unchanged (idempotence), and it introduces no duplicate
table. -/
theorem init_db_idempotent (s : Schema) :
    (init_db s).2 = none ∧
    init_db (init_db s).1 = ((init_db s).1, none) ∧
    (s.tables.Nodup → (init_db s).1.tables.Nodup) := by
  refine ⟨rfl, ?_, fun h => ?_⟩
  · have h1 : "tracked" ∈ (init_db s).1.tables :=
      createTable_mem_mono _ _ _ (createTable_mem_self s "tracked")
    have h2 : "downvoted" ∈ (init_db s).1.tables :=
      createTable_mem_self _ _
    show (createTableIfNotExists
        (createTableIfNotExists (init_db s).1 "tracked") "downvoted", none) =
      ((init_db s).1, none)
    rw [createTable_of_mem _ _ h1, createTable_of_mem _ _ h2]
  · exact createTable_nodup _ _ (createTable_nodup _ _ h)

/-- Witness for C8 on the fresh schema with no tables. -/
theorem init_db_idempotent_witness :
    (init_db { tables := [] }).2 = none ∧
    init_db (init_db { tables := [] }).1 =
      ((init_db { tables := [] }).1, none) ∧
    (init_db { tables := [] }).1.tables.Nodup := by
  have h := init_db_idempotent { tables := [] }
  exact ⟨h.1, h.2.1, h.2.2 (by decide)⟩

/-- C10: upserting a row with positive score violates the table's CHECK,
raising `IntegrityError` with the database unchanged; with score ≤ 0 the
upsert raises nothing. -/
theorem upsert_positive_score_fails (db : DB) (r : DownvotedRow) :
    (0 < r.score → upsertComment db r = (db, some .integrityError)) ∧
    (r.score ≤ 0 → (upsertComment db r).2 = none) := by
  constructor
  · intro h
    have hn : ¬ r.score ≤ 0 := not_le.mpr h
    simp [upsertComment, hn]
  · intro h
    simp [upsertComment, h]

/-- Witness for C10: the score-5 row is rejected with the store unchanged;
the score--1 row is accepted. -/
theorem upsert_positive_score_fails_witness :
    upsertComment DB.empty rowNew = (DB.empty, some .integrityError) ∧
    (upsertComment DB.empty rowOld).2 = none :=
  ⟨(upsert_positive_score_fails DB.empty rowNew).1 (by decide),
   (upsert_positive_score_fails DB.empty rowOld).2 (by decide)⟩

/-- C1: the database after `scan_user` is the starting database with exactly
the comments of the source listing that are not score-hidden and have score
≤ 0 upserted, in source order, the tracked table untouched; in particular on
scores `[5, 0, -1, -3]` (none hidden) exactly the three rows with score ≤ 0
appear, and a score-hidden comment (score -2) is never upserted. -/
theorem scan_user_upserts_exactly_filtered :
    (∀ (src : String → List Comment) (db : DB) (user : String),
      (scan_user src db user).1 =
        scanFold db user ((src user).filter scanPred) ∧
      (scan_user src db user).1.tracked = db.tracked) ∧
    ((scan_user srcScores DB.empty "alice").1.downvoted.map DownvotedRow.id =
      ["t1_b", "t1_c", "t1_d"]) ∧
    (scan_user srcHidden DB.empty "alice").1 = DB.empty := by
  have hfst : ∀ (src : String → List Comment) (db : DB) (user : String),
      (scan_user src db user).1 =
        scanFold db user ((src user).filter scanPred) := by
    intro src db user
    rw [scan_user_eq]
  refine ⟨fun src db user => ⟨hfst src db user, ?_⟩, ?_, ?_⟩
  · rw [hfst src db user]
    exact scanFold_tracked user _ db
  · rfl
  · rfl

/-- C2 counterexample: with alice and bob both active and alice's comment
listing empty, the fetched list is non-empty but the scan of alice raises and
bob is never scanned — scan is NOT invoked once for every fetched pair. -/
theorem pollCycle_skips_user_after_error :
    get_users dbTwoUsers = [("alice", false), ("bob", false)] ∧
    (pollCycle srcAliceEmpty dbTwoUsers).2.2.1 = ["alice"] ∧
    "bob" ∉ (pollCycle srcAliceEmpty dbTwoUsers).2.2.1 := by
  have h2 : (pollCycle srcAliceEmpty dbTwoUsers).2.2.1 = ["alice"] := rfl
  refine ⟨rfl, h2, ?_⟩
  rw [h2]
  decide

/-- C2 amended: in a poll cycle whose fetched active-user list is non-empty,
provided every fetched user's comment listing is non-empty (so no scan
raises), `scan_user` is invoked exactly once for every fetched
`(username, hidden)` pair, sequentially in list order, and the cycle raises
nothing. -/
theorem pollCycle_scans_each_fetched_user
    (src : String → List Comment) (db : DB)
    (hne : get_users db ≠ [])
    (hsrc : ∀ p ∈ get_users db, src p.1 ≠ []) :
    (pollCycle src db).2.2.1 = (get_users db).map Prod.fst ∧
    (pollCycle src db).2.1 = none := by
  have htot := scanUsers_total src (get_users db) db hsrc
  have hlen : ¬ (get_users db).length = 0 := by
    simpa [List.length_eq_zero] using hne
  constructor
  · simp [pollCycle, hlen, htot.2]
  · simp [pollCycle, hlen, htot.1]

/-- Witness for the amended C2: with alice and bob active and a listing for
every user, both are scanned, in order, with no error. -/
theorem pollCycle_scans_each_fetched_user_witness :
    (pollCycle srcAllGood dbTwoUsers).2.2.1 =
      (get_users dbTwoUsers).map Prod.fst ∧
    (pollCycle srcAllGood dbTwoUsers).2.1 = none :=
  pollCycle_scans_each_fetched_user srcAllGood dbTwoUsers (by decide)
    (by decide)

/-- C3 counterexample: upserting id t1_x with score -1 and body "old", then
again with the same id but score 5 and body "new": the second call raises the
constraint error and the single remaining row still carries the FIRST call's
values, not the latest. -/
theorem upsert_twice_not_latest_on_positive_score :
    (upsertComment (upsertComment DB.empty rowOld).1 rowNew).1.downvoted =
      [rowOld] ∧
    (upsertComment (upsertComment DB.empty rowOld).1 rowNew).2 =
      some .integrityError ∧
    rowNew.id = rowOld.id ∧ rowOld.body ≠ rowNew.body := by
  exact ⟨rfl, rfl, rfl, by decide⟩

/-- C3 amended: calling `upsertComment` twice with records sharing the same
id but different score/body leaves exactly one row with that id, carrying the
second call's values, and the second call raises nothing — provided the
second record's score is ≤ 0 (a positive score is rejected by the CHECK, see
the counterexample). -/
theorem upsert_twice_latest (db : DB) (r1 r2 : DownvotedRow)
    (_hid : r2.id = r1.id) (h2 : r2.score ≤ 0) :
    (upsertComment (upsertComment db r1).1 r2).2 = none ∧
    (upsertComment (upsertComment db r1).1 r2).1.downvoted.filter
      (fun x => x.id = r2.id) = [r2] := by
  constructor
  · simp [upsertComment, h2]
  · by_cases h1 : r1.score ≤ 0
    · simp only [upsertComment, h1, if_true, if_pos, h2, applyUpsert,
        List.filter_append, filter_eq_id_of_filter_ne, List.nil_append]
      simp
    · simp only [upsertComment, h1, if_false, if_neg, h2, applyUpsert,
        List.filter_append, filter_eq_id_of_filter_ne, List.nil_append]
      simp

/-- Witness for the amended C3: replacing the score--1/"old" row by a
score--4/"new" row with the same id leaves exactly the new row. -/
theorem upsert_twice_latest_witness :
    (upsertComment (upsertComment DB.empty rowOld).1 rowNew2).2 = none ∧
    (upsertComment (upsertComment DB.empty rowOld).1 rowNew2).1.downvoted.filter
      (fun x => x.id = rowNew2.id) = [rowNew2] :=
  upsert_twice_latest DB.empty rowOld rowNew2 rfl (by decide)

/-- C9: with an empty comment listing for a user, `scan_user` raises the
name-binding error (the loop-local `counter` is read after a loop that never
ran) leaving the database unchanged; when that user heads the active list,
the poll cycle terminates with that error right after the single scan instead
of skipping the user. -/
theorem scan_user_empty_listing_raises
    (src : String → List Comment) (db : DB) (user : String) (hidden : Bool)
    (rest : List (String × Bool))
    (hsrc : src user = []) (hu : get_users db = (user, hidden) :: rest) :
    scan_user src db user = (db, some .nameError) ∧
    pollCycle src db = (db, some .nameError, [user], none) := by
  have hscan : scan_user src db user = (db, some .nameError) := by
    rw [scan_user_eq]
    simp [hsrc, scanFold]
  refine ⟨hscan, ?_⟩
  have hlen : ¬ (get_users db).length = 0 := by simp [hu]
  simp [pollCycle, hlen, hu, scanUsers, hscan]

/-- Witness for C9: alice is active, the source has no comments for her, and
the cycle aborts with the name-binding error. -/
theorem scan_user_empty_listing_raises_witness :
    scan_user srcNone dbAliceActive "alice" =
      (dbAliceActive, some .nameError) ∧
    pollCycle srcNone dbAliceActive =
      (dbAliceActive, some .nameError, ["alice"], none) :=
  scan_user_empty_listing_raises srcNone dbAliceActive "alice" false []
    rfl rfl
